import Mathlib

/-!
Verification development for the client-side script of the DevHubX Cloud
blog (`script.js`).  The script's stateful browser API usage (DOM
attributes, `localStorage`, toast elements, timers) is shallowly embedded
as explicit state passing over Lean structures; each definition mirrors
one function of the source file.
-/

set_option maxRecDepth 4000
set_option linter.unusedVariables false

/-- JavaScript `\s` character class (the whitespace set used by
`String.prototype.trim` and by the email regular expression). -/
def jsSpace (c : Char) : Bool :=
  c == '\t' || c == '\n' || c == Char.ofNat 11 || c == Char.ofNat 12 || c == '\r' ||
  c == ' ' || c == Char.ofNat 0xA0 || c == Char.ofNat 0x1680 ||
  (Nat.ble 0x2000 c.toNat && Nat.ble c.toNat 0x200A) ||
  c == Char.ofNat 0x2028 || c == Char.ofNat 0x2029 || c == Char.ofNat 0x202F ||
  c == Char.ofNat 0x205F || c == Char.ofNat 0x3000 || c == Char.ofNat 0xFEFF

/-- JavaScript `String.prototype.trim`: strip `\s` characters from both ends. -/
def jsTrim (s : String) : String :=
  String.mk (((s.data.dropWhile jsSpace).reverse.dropWhile jsSpace).reverse)

/-- JavaScript truthiness of a `localStorage.getItem` result: `null` and the
empty string are falsy, every other string is truthy. -/
def truthyOpt : Option String → Bool
  | none => false
  | some v => !(v == "")

/-- JavaScript falsiness of a `localStorage.getItem` result (`!value`). -/
def falsyOpt (v : Option String) : Bool := !(truthyOpt v)

/-!
## Theme management (`initTheme`, `setTheme`, `toggleTheme`)

The observable state of the theme subsystem: the `data-theme` attribute of
the document element, the `devhubx_theme` entry of `localStorage`, and the
list of screen-reader announcements emitted so far.
-/

structure ThemeState where
  themeAttr : Option String
  stored : Option String
  announcements : List String
deriving DecidableEq, Repr

/-- `setTheme(theme)` from `script.js`: reject anything outside
`['light','dark']`, otherwise set the `data-theme` attribute, persist the
value under the theme storage key, and announce the change. -/
def setTheme (theme : String) (s : ThemeState) : ThemeState :=
  if theme == "light" || theme == "dark" then
    { themeAttr := some theme
      stored := some theme
      announcements := s.announcements ++ ["Theme changed to " ++ theme ++ " mode"] }
  else s

/-- `toggleTheme()` from `script.js`: read the current `data-theme`
attribute and set `'light'` when it is exactly `'dark'`, `'dark'` otherwise. -/
def toggleTheme (s : ThemeState) : ThemeState :=
  setTheme (if s.themeAttr == some "dark" then "light" else "dark") s

/-- The initial-application part of `initTheme()` from `script.js`:
read the saved theme, and apply dark when `savedTheme === 'dark'` or
`(!savedTheme && systemPrefersDark)`, light otherwise.  The
`prefers-color-scheme` change listener that `initTheme` also installs is
modelled separately as `themeChangeHandler`. -/
def initTheme (osDark : Bool) (s : ThemeState) : ThemeState :=
  if s.stored == some "dark" || (falsyOpt s.stored && osDark) then
    setTheme "dark" s
  else
    setTheme "light" s

/-- The `prefers-color-scheme: dark` change listener installed by
`initTheme`: when the theme storage key is absent (falsy), apply the new
OS preference; otherwise do nothing. -/
def themeChangeHandler (osDark : Bool) (s : ThemeState) : ThemeState :=
  if falsyOpt s.stored then setTheme (if osDark then "dark" else "light") s else s

/-!
## Toast notifications (`showToast`, `hideToast`, `removeExistingToasts`)

Two views are used.  For the document-level invariant (claim about element
counts) the document is the list of identifiers of `.toast` elements
currently attached, together with a counter supplying fresh identifiers;
the relevant event-loop turns are modelled as events.  For the form
handlers, only the message/kind content of the single surviving toast
matters, so there the toast list carries messages.
-/

/-- An event-loop turn touching the toast portion of the document:
a `showToast` call, a click on a toast close button, the 5000 ms
auto-hide timer of a toast firing, and the 300 ms removal timer scheduled
by `hideToast` firing.  Clicks and auto-hide only remove the `show` class
and schedule a removal timer; only `showCall` and `removalTimer` change
which elements are attached. -/
inductive ToastEv where
  | showCall (message kind : String)
  | closeClick (id : Nat)
  | autoHide (id : Nat)
  | removalTimer (id : Nat)
deriving DecidableEq, Repr

/-- One step of the toast document model.  `showToast` first runs
`removeExistingToasts` (detaching every `.toast` element) and then appends
one freshly created toast element; the removal timer of `hideToast`
detaches its toast if it is still attached (`toast.parentNode`) and is a
no-op otherwise. -/
def toastStep : List Nat × Nat → ToastEv → List Nat × Nat
  | (doc, n), ToastEv.showCall _ _ => (doc.filter (fun _ => false) ++ [n], n + 1)
  | (doc, n), ToastEv.removalTimer i => (doc.filter (fun j => !(j == i)), n)
  | st, ToastEv.closeClick _ => st
  | st, ToastEv.autoHide _ => st

/-- Run a sequence of toast events from an empty document. -/
def runToasts (evs : List ToastEv) : List Nat × Nat :=
  evs.foldl toastStep ([], 0)

/-- A toast's user-visible content: message text and kind class. -/
structure ToastMsg where
  message : String
  kind : String
deriving DecidableEq, Repr

/-- `removeExistingToasts()` from `script.js`: detach every `.toast`
element from the document. -/
def removeExistingToasts (ts : List ToastMsg) : List ToastMsg :=
  ts.filter (fun _ => false)

/-- `showToast(message, type)` from `script.js`, content view: remove the
existing toasts, then append the one newly created toast element. -/
def showToast (message kind : String) (ts : List ToastMsg) : List ToastMsg :=
  removeExistingToasts ts ++ [⟨message, kind⟩]

/-!
## Email validation (`isValidEmail`)

The source tests the trimmed input against the anchored regular expression
`/^[^\s@]+@[^\s@]+\.[^\s@]+$/`.  The regular expression is embedded as a
small syntax tree (single character, one-or-more of a character class,
concatenation) with the standard word semantics, decided by an executable
matcher that tries every split for a concatenation.
-/

/-- The fragment of regular-expression syntax used by the email pattern. -/
inductive Regex where
  | chr (c : Char)
  | plusCls (p : Char → Bool)
  | cat (a b : Regex)

/-- All ways to split a word into a left and right part. -/
def allSplits (s : List Char) : List (List Char × List Char) :=
  (List.range (s.length + 1)).map (fun i => (s.take i, s.drop i))

/-- Executable full-match semantics of `Regex` (for an anchored pattern,
`RegExp.test` accepts exactly the words of the pattern's language). -/
def rmatch : Regex → List Char → Bool
  | Regex.chr c, s => s == [c]
  | Regex.plusCls p, s => !s.isEmpty && s.all p
  | Regex.cat a b, s => (allSplits s).any (fun pr => rmatch a pr.1 && rmatch b pr.2)

/-- The character class `[^\s@]`: anything that is neither a `\s`
whitespace character nor `'@'`. -/
def emailCharOk (c : Char) : Bool := !(jsSpace c) && !(c == '@')

/-- The email pattern `^[^\s@]+@[^\s@]+\.[^\s@]+$` as a `Regex`. -/
def emailRegex : Regex :=
  Regex.cat (Regex.plusCls emailCharOk)
    (Regex.cat (Regex.chr '@')
      (Regex.cat (Regex.plusCls emailCharOk)
        (Regex.cat (Regex.chr '.') (Regex.plusCls emailCharOk))))

/-- `isValidEmail(email)` from `script.js`. -/
def isValidEmail (email : String) : Bool :=
  rmatch emailRegex email.data

/-!
## Newsletter form (`initForms`, `handleNewsletterSubmit`,
`updateNewsletterFormState`, `setButtonLoading`)

The observable state: the `devhubx_newsletter_subscribed` storage entry,
the attached toasts (content view), the newsletter form's email input
(value, placeholder, disabled), its submit button (text, disabled,
loading class), and the analytics events emitted via `trackEvent`.
-/

structure NewsletterForm where
  emailValue : String
  emailPlaceholder : String
  emailDisabled : Bool
  submitText : String
  submitDisabled : Bool
  submitLoading : Bool
deriving DecidableEq, Repr

structure NewsState where
  subscribedFlag : Option String
  toasts : List ToastMsg
  form : NewsletterForm
  trackedEvents : List String
deriving DecidableEq, Repr

/-- `setButtonLoading(button, isLoading)` from `script.js`. -/
def setButtonLoading (isLoading : Bool) (f : NewsletterForm) : NewsletterForm :=
  if isLoading then
    { f with submitLoading := true, submitDisabled := true }
  else
    { f with submitLoading := false, submitDisabled := false }

/-- `updateNewsletterFormState(isSubscribed)` from `script.js`: when
subscribed, clear the email value, set the placeholder, disable the input,
relabel and disable the submit button; otherwise do nothing. -/
def updateNewsletterFormState (isSubscribed : Bool) (f : NewsletterForm) : NewsletterForm :=
  if isSubscribed then
    { f with emailValue := ""
             emailPlaceholder := "You are already subscribed!"
             emailDisabled := true
             submitText := "Subscribed ✓"
             submitDisabled := true }
  else f

/-- The newsletter part of `initForms()` from `script.js`: read the
subscribed flag; when it is truthy, render the form in its subscribed
state. -/
def initFormsNewsletter (s : NewsState) : NewsState :=
  if truthyOpt s.subscribedFlag then
    { s with form := updateNewsletterFormState true s.form }
  else s

/-- `handleNewsletterSubmit(e)` from `script.js`.  `apiSuccess` is the
outcome of the awaited `simulateAPICall` promise.  Returns the resulting
state together with whether the (simulated) API call was attempted.
Validation failure: error toast, focus, early return.  Success branch:
success toast, persist the flag, subscribed form state, `form.reset()`,
track the event; failure branch: error toast; both run the `finally`
clause `setButtonLoading(submitBtn, false)`. -/
def handleNewsletterSubmit (apiSuccess : Bool) (s : NewsState) : NewsState × Bool :=
  let email := jsTrim s.form.emailValue
  if !(isValidEmail email) then
    ({ s with toasts := showToast "Please enter a valid email address" "error" s.toasts }, false)
  else
    let s1 : NewsState := { s with form := setButtonLoading true s.form }
    if apiSuccess then
      let s2 : NewsState :=
        { s1 with toasts := showToast "Successfully subscribed to newsletter!" "success" s1.toasts }
      let s3 : NewsState := { s2 with subscribedFlag := some "true" }
      let s4 : NewsState := { s3 with form := updateNewsletterFormState true s3.form }
      let s5 : NewsState := { s4 with form := { s4.form with emailValue := "" } }
      let s6 : NewsState := { s5 with trackedEvents := s5.trackedEvents ++ ["newsletter_subscription"] }
      ({ s6 with form := setButtonLoading false s6.form }, true)
    else
      let s2 : NewsState :=
        { s1 with toasts := showToast "Subscription failed. Please try again." "error" s1.toasts }
      ({ s2 with form := setButtonLoading false s2.form }, true)

/-!
## Mock API (`simulateAPICall`)

The promise either resolves with `{success: true, data: data}` or rejects
with `Error('API request failed')`, in both cases after the fixed 1500 ms
timeout.  The draw `Math.random()` is an input `r`; the code succeeds
exactly when `r > 0.1`.
-/

/-- `simulateAPICall(endpoint, data)` from `script.js`, with the
`Math.random()` draw passed in as `r`.  The first component is the delay
in milliseconds before the promise settles; the second is the settlement:
`Except.ok (true, data)` models `resolve({success: true, data: data})` and
`Except.error` models `reject(new Error('API request failed'))`. -/
def simulateAPICall (endpoint : String) (data : String) (r : ℚ) :
    Nat × Except String (Bool × String) :=
  (1500,
    if (1 : ℚ)/10 < r then Except.ok (true, data)
    else Except.error "API request failed")


/-!
## Spec-side predicates

Definitions written from the claims' own words, to be compared with the
source embeddings above.
-/

/-- The success outcome of a newsletter submission: the success toast is
the one displayed toast and the subscribed flag is persisted. -/
def newsletterSuccessOutcome (post : NewsState) : Prop :=
  post.toasts = [⟨"Successfully subscribed to newsletter!", "success"⟩]
  ∧ post.subscribedFlag = some "true"

/-- The failure outcome of a newsletter submission: the failure toast is
the one displayed toast and the subscribed flag is unchanged from the
pre-submission state. -/
def newsletterFailureOutcome (pre post : NewsState) : Prop :=
  post.toasts = [⟨"Subscription failed. Please try again.", "error"⟩]
  ∧ post.subscribedFlag = pre.subscribedFlag

/-- The shape the claim ascribes to accepted addresses: one or more
characters that are neither whitespace nor `'@'`, then `'@'`, one or more
such characters, `'.'`, and one or more such characters. -/
def EmailShape (l : List Char) : Prop :=
  ∃ x y z : List Char,
    l = x ++ '@' :: (y ++ '.' :: z)
    ∧ x ≠ [] ∧ y ≠ [] ∧ z ≠ []
    ∧ (∀ c ∈ x, jsSpace c = false ∧ c ≠ '@')
    ∧ (∀ c ∈ y, jsSpace c = false ∧ c ≠ '@')
    ∧ (∀ c ∈ z, jsSpace c = false ∧ c ≠ '@')

/-!
## Helper lemmas
-/

lemma removeExistingToasts_eq_nil (ts : List ToastMsg) : removeExistingToasts ts = [] := by
  simp [removeExistingToasts]

lemma toastStep_preserves (st : List Nat × Nat) (ev : ToastEv)
    (h : st.1.length ≤ 1) : (toastStep st ev).1.length ≤ 1 := by
  obtain ⟨doc, n⟩ := st
  cases ev with
  | showCall m k => simp [toastStep]
  | closeClick i => simpa [toastStep] using h
  | autoHide i => simpa [toastStep] using h
  | removalTimer i =>
    exact le_trans (List.length_filter_le _ doc) h

lemma foldl_toastStep_le (evs : List ToastEv) (st : List Nat × Nat)
    (h : st.1.length ≤ 1) : (evs.foldl toastStep st).1.length ≤ 1 := by
  induction evs generalizing st with
  | nil => simpa using h
  | cons ev rest ih => exact ih (toastStep st ev) (toastStep_preserves st ev h)

/-- **C3.** For every sequence of toast events (`showToast` calls, close
clicks, auto-hide timers, pending hide-removal timers) starting from an
empty document, at most one toast element is attached after every step,
and immediately after any `showToast` call completes exactly one toast
element is attached — no orphaned elements remain. -/
theorem runToasts_at_most_one_toast :
    (∀ evs : List ToastEv, (runToasts evs).1.length ≤ 1)
    ∧ (∀ (evs : List ToastEv) (m k : String),
        (runToasts (evs ++ [ToastEv.showCall m k])).1.length = 1) := by
  constructor
  · intro evs
    exact foldl_toastStep_le evs ([], 0) (by simp)
  · intro evs m k
    unfold runToasts
    rw [List.foldl_append]
    simp [toastStep]

/-!
## Theme theorems
-/

lemma setTheme_light_stored (s : ThemeState) : (setTheme "light" s).stored = some "light" := rfl

lemma setTheme_dark_stored (s : ThemeState) : (setTheme "dark" s).stored = some "dark" := rfl

/-- **C1.** Evaluation at the failing scenario: on a fresh load with no
stored theme and an OS preference of light, `initTheme` applies (and
persists) light; when the OS preference then changes to dark — with the
user never having made an explicit choice — the change handler leaves the
active theme at light instead of switching it to dark, because `initTheme`
itself persisted the theme key and the handler's `!getItem` guard is
therefore false. -/
theorem themeChangeHandler_dead_after_init :
    (themeChangeHandler true (initTheme false ⟨none, none, []⟩)).themeAttr = some "light"
    ∧ (themeChangeHandler true (initTheme false ⟨none, none, []⟩)).themeAttr ≠ some "dark"
    ∧ (initTheme false ⟨none, none, []⟩).stored = some "light" := by
  constructor
  · rfl
  · constructor
    · decide
    · rfl

/-- **C2 (counterexample).** The claim that with no user toggle the stored
theme value after initialization equals the value before it ("absent stays
absent") is false: on a load with no stored theme and an OS preference of
light, `initTheme` alone — no toggle — leaves `some "light"` in storage. -/
theorem initTheme_writes_store_without_toggle :
    (initTheme false ⟨none, none, []⟩).stored ≠ none
    ∧ (initTheme false ⟨none, none, []⟩).stored = some "light" := by
  constructor
  · decide
  · rfl

/-- **C2 (amended).** The theme key is read once at startup but is written
by initialization itself as well as by every explicit toggle: after
`initTheme` the stored value is always the resolved theme (`"light"` or
`"dark"`), a previously stored `"light"` or `"dark"` is preserved
unchanged, `setTheme` either writes the requested value or leaves storage
untouched, and no operation ever deletes the key (no operation maps a
present value back to `none`). -/
theorem theme_storage_lifecycle :
    (∀ (osDark : Bool) (s : ThemeState),
        (initTheme osDark s).stored = some "light" ∨ (initTheme osDark s).stored = some "dark")
    ∧ (∀ (osDark : Bool) (s : ThemeState),
        s.stored = some "light" → (initTheme osDark s).stored = some "light")
    ∧ (∀ (osDark : Bool) (s : ThemeState),
        s.stored = some "dark" → (initTheme osDark s).stored = some "dark")
    ∧ (∀ (t : String) (s : ThemeState),
        (setTheme t s).stored = some t ∨ (setTheme t s).stored = s.stored)
    ∧ (∀ s : ThemeState,
        (toggleTheme s).stored = some "light" ∨ (toggleTheme s).stored = some "dark")
    ∧ (∀ (osDark : Bool) (s : ThemeState),
        (themeChangeHandler osDark s).stored = some "light"
        ∨ (themeChangeHandler osDark s).stored = some "dark"
        ∨ (themeChangeHandler osDark s).stored = s.stored) := by
  refine ⟨?_, ?_, ?_, ?_, ?_, ?_⟩
  · intro osDark s
    unfold initTheme
    split
    · exact Or.inr (setTheme_dark_stored s)
    · exact Or.inl (setTheme_light_stored s)
  · intro osDark s h
    unfold initTheme
    rw [h]
    simp [falsyOpt, truthyOpt, setTheme]
  · intro osDark s h
    unfold initTheme
    rw [h]
    simp [falsyOpt, truthyOpt, setTheme]
  · intro t s
    unfold setTheme
    split
    · exact Or.inl rfl
    · exact Or.inr rfl
  · intro s
    unfold toggleTheme
    split
    · exact Or.inl (setTheme_light_stored s)
    · exact Or.inr (setTheme_dark_stored s)
  · intro osDark s
    unfold themeChangeHandler
    split
    · cases osDark
      · exact Or.inl (setTheme_light_stored s)
      · exact Or.inr (Or.inl (setTheme_dark_stored s))
    · exact Or.inr (Or.inr rfl)

/-- Witness for `theme_storage_lifecycle`: its two conditional conjuncts
applied at concrete stored values. -/
theorem theme_storage_lifecycle_witness :
    (initTheme true ⟨some "light", some "light", []⟩).stored = some "light"
    ∧ (initTheme false ⟨some "dark", some "dark", []⟩).stored = some "dark" :=
  ⟨theme_storage_lifecycle.2.1 true ⟨some "light", some "light", []⟩ rfl,
   theme_storage_lifecycle.2.2.1 false ⟨some "dark", some "dark", []⟩ rfl⟩

/-- **C6.** `toggleTheme` persists exactly the theme it sets (the flip of
the current `data-theme` attribute, both in storage and as the active
attribute), and from a starting active theme of `light` or `dark` two
toggles return the active theme to its original value. -/
theorem toggleTheme_persists_and_involutive (s : ThemeState) :
    (toggleTheme s).stored = some (if s.themeAttr == some "dark" then "light" else "dark")
    ∧ (toggleTheme s).themeAttr = some (if s.themeAttr == some "dark" then "light" else "dark")
    ∧ ((s.themeAttr = some "light" ∨ s.themeAttr = some "dark") →
        (toggleTheme (toggleTheme s)).themeAttr = s.themeAttr) := by
  refine ⟨?_, ?_, ?_⟩
  · unfold toggleTheme
    split
    · exact setTheme_light_stored s
    · exact setTheme_dark_stored s
  · unfold toggleTheme
    split
    · rfl
    · rfl
  · intro h
    rcases h with h | h <;> simp [toggleTheme, setTheme, h]

/-- Witness for `toggleTheme_persists_and_involutive`: the double-toggle
conjunct at a concrete light state. -/
theorem toggleTheme_persists_and_involutive_witness :
    (toggleTheme (toggleTheme ⟨some "light", some "light", []⟩)).themeAttr = some "light" :=
  (toggleTheme_persists_and_involutive ⟨some "light", some "light", []⟩).2.2 (Or.inl rfl)

/-- **C7.** `initTheme` resolves the active theme as: the explicitly
stored preference when one exists, else the OS-reported preference; in
particular with nothing stored the active theme after initialization is
exactly the OS preference (dark when the OS reports dark, light — the
default — otherwise). -/
theorem initTheme_resolution (osDark : Bool) (s : ThemeState) :
    (s.stored = some "dark" → (initTheme osDark s).themeAttr = some "dark")
    ∧ (s.stored = some "light" → (initTheme osDark s).themeAttr = some "light")
    ∧ (s.stored = none → (initTheme osDark s).themeAttr
        = some (if osDark then "dark" else "light")) := by
  refine ⟨?_, ?_, ?_⟩
  · intro h
    simp [initTheme, h, setTheme]
  · intro h
    simp [initTheme, h, falsyOpt, truthyOpt, setTheme]
  · intro h
    cases osDark <;> simp [initTheme, h, falsyOpt, truthyOpt, setTheme]

/-- Witness for `initTheme_resolution`: all three conditional conjuncts at
concrete inputs. -/
theorem initTheme_resolution_witness :
    (initTheme false ⟨none, some "dark", []⟩).themeAttr = some "dark"
    ∧ (initTheme true ⟨none, some "light", []⟩).themeAttr = some "light"
    ∧ (initTheme true ⟨none, none, []⟩).themeAttr = some "dark" :=
  ⟨(initTheme_resolution false ⟨none, some "dark", []⟩).1 rfl,
   (initTheme_resolution true ⟨none, some "light", []⟩).2.1 rfl,
   (initTheme_resolution true ⟨none, none, []⟩).2.2 rfl⟩


/-!
## Newsletter form theorems
-/

/-- **C5.** A newsletter submission whose (trimmed) email fails
`isValidEmail` shows exactly the validation-error toast and returns early:
the simulated API call is never attempted, and the subscribed flag, the
form state and the tracked events are all unchanged. -/
theorem handleNewsletterSubmit_invalid_email (apiSuccess : Bool) (s : NewsState)
    (h : isValidEmail (jsTrim s.form.emailValue) = false) :
    (handleNewsletterSubmit apiSuccess s).2 = false
    ∧ (handleNewsletterSubmit apiSuccess s).1.toasts
        = [⟨"Please enter a valid email address", "error"⟩]
    ∧ (handleNewsletterSubmit apiSuccess s).1.subscribedFlag = s.subscribedFlag
    ∧ (handleNewsletterSubmit apiSuccess s).1.form = s.form
    ∧ (handleNewsletterSubmit apiSuccess s).1.trackedEvents = s.trackedEvents := by
  simp [handleNewsletterSubmit, h, showToast, removeExistingToasts_eq_nil]

/-- Witness for `handleNewsletterSubmit_invalid_email` at the concrete
input `"not-an-email"`. -/
theorem handleNewsletterSubmit_invalid_email_witness :
    (handleNewsletterSubmit true
      ⟨none, [], ⟨"not-an-email", "Enter your email", false, "Subscribe", false, false⟩, []⟩).2
      = false :=
  (handleNewsletterSubmit_invalid_email true
    ⟨none, [], ⟨"not-an-email", "Enter your email", false, "Subscribe", false, false⟩, []⟩
    (by decide)).1

/-- **C4.** For every newsletter submission with a valid (trimmed) email,
exactly one of the two outcomes occurs: when the simulated call succeeds,
the success toast is shown and the subscribed flag persisted; when it
fails, the failure toast is shown and the flag is unchanged — never both
outcomes, never neither. -/
theorem handleNewsletterSubmit_valid_exactly_one (apiSuccess : Bool) (s : NewsState)
    (h : isValidEmail (jsTrim s.form.emailValue) = true) :
    (newsletterSuccessOutcome (handleNewsletterSubmit apiSuccess s).1
      ∧ ¬ newsletterFailureOutcome s (handleNewsletterSubmit apiSuccess s).1)
    ∨ (newsletterFailureOutcome s (handleNewsletterSubmit apiSuccess s).1
      ∧ ¬ newsletterSuccessOutcome (handleNewsletterSubmit apiSuccess s).1) := by
  cases apiSuccess with
  | true =>
    left
    simp [newsletterSuccessOutcome, newsletterFailureOutcome, handleNewsletterSubmit, h,
      showToast, removeExistingToasts_eq_nil, setButtonLoading, updateNewsletterFormState]
  | false =>
    right
    simp [newsletterSuccessOutcome, newsletterFailureOutcome, handleNewsletterSubmit, h,
      showToast, removeExistingToasts_eq_nil, setButtonLoading]

/-- Witness for `handleNewsletterSubmit_valid_exactly_one` at the concrete
input `"user@example.com"` with a succeeding simulated call. -/
theorem handleNewsletterSubmit_valid_exactly_one_witness :
    ((newsletterSuccessOutcome (handleNewsletterSubmit true
        ⟨none, [], ⟨"user@example.com", "", false, "Subscribe", false, false⟩, []⟩).1
      ∧ ¬ newsletterFailureOutcome
        ⟨none, [], ⟨"user@example.com", "", false, "Subscribe", false, false⟩, []⟩
        (handleNewsletterSubmit true
          ⟨none, [], ⟨"user@example.com", "", false, "Subscribe", false, false⟩, []⟩).1)
    ∨ (newsletterFailureOutcome
        ⟨none, [], ⟨"user@example.com", "", false, "Subscribe", false, false⟩, []⟩
        (handleNewsletterSubmit true
          ⟨none, [], ⟨"user@example.com", "", false, "Subscribe", false, false⟩, []⟩).1
      ∧ ¬ newsletterSuccessOutcome (handleNewsletterSubmit true
          ⟨none, [], ⟨"user@example.com", "", false, "Subscribe", false, false⟩, []⟩).1)) :=
  handleNewsletterSubmit_valid_exactly_one true
    ⟨none, [], ⟨"user@example.com", "", false, "Subscribe", false, false⟩, []⟩ (by decide)

/-- **C8.** Whenever the newsletter-subscribed flag is present in storage
with a truthy value (in particular `"true"`, the only value the code ever
persists), `initForms` renders the newsletter form disabled: email input
disabled, submit button disabled, and the email placeholder set to
`"You are already subscribed!"`. -/
theorem initFormsNewsletter_renders_subscribed (s : NewsState) (v : String)
    (h1 : s.subscribedFlag = some v) (h2 : v ≠ "") :
    (initFormsNewsletter s).form.emailDisabled = true
    ∧ (initFormsNewsletter s).form.submitDisabled = true
    ∧ (initFormsNewsletter s).form.emailPlaceholder = "You are already subscribed!"
    ∧ (initFormsNewsletter s).form.submitText = "Subscribed ✓" := by
  have hv : (v == "") = false := by
    rw [beq_eq_false_iff_ne]
    exact h2
  simp [initFormsNewsletter, truthyOpt, h1, hv, updateNewsletterFormState]

/-- Witness for `initFormsNewsletter_renders_subscribed` at the value the
code persists, `"true"`. -/
theorem initFormsNewsletter_renders_subscribed_witness :
    (initFormsNewsletter ⟨some "true", [], ⟨"", "Enter your email", false, "Subscribe",
        false, false⟩, []⟩).form.emailDisabled = true :=
  (initFormsNewsletter_renders_subscribed
    ⟨some "true", [], ⟨"", "Enter your email", false, "Subscribe", false, false⟩, []⟩
    "true" rfl (by decide)).1

/-!
## Mock API theorem
-/

/-- **C9.** `simulateAPICall` settles only after the fixed 1500 ms delay,
and with the `Math.random()` draw modelled as the input `r` it resolves
with `{success: true}` exactly when `r > 0.1` (success on measure 9/10 of
the uniform draw space `[0,1)`), and otherwise rejects with
`Error('API request failed')`. -/
theorem simulateAPICall_spec (endpoint data : String) (r : ℚ) :
    (simulateAPICall endpoint data r).1 = 1500
    ∧ ((simulateAPICall endpoint data r).2 = Except.ok (true, data) ↔ (1 : ℚ)/10 < r)
    ∧ (¬ ((1 : ℚ)/10 < r) →
        (simulateAPICall endpoint data r).2 = Except.error "API request failed") := by
  refine ⟨rfl, ?_, ?_⟩
  · unfold simulateAPICall
    split
    · next hlt => simpa using hlt
    · next hlt =>
        constructor
        · intro he
          simp at he
        · intro hr
          exact absurd hr hlt
  · intro hge
    unfold simulateAPICall
    rw [if_neg hge]

/-- Witness for `simulateAPICall_spec`: the rejection conjunct at the
concrete draw `r = 1/20`. -/
theorem simulateAPICall_spec_witness :
    (simulateAPICall "https://api.devhubx.org/newsletter" "user@example.com"
      ((1 : ℚ)/20)).2 = Except.error "API request failed" :=
  (simulateAPICall_spec "https://api.devhubx.org/newsletter" "user@example.com"
    ((1 : ℚ)/20)).2.2 (by norm_num)

/-!
## Email validation theorems
-/

lemma emailCharOk_iff (c : Char) :
    emailCharOk c = true ↔ (jsSpace c = false ∧ c ≠ '@') := by
  simp [emailCharOk]

lemma rmatch_chr_iff (c : Char) (s : List Char) :
    rmatch (Regex.chr c) s = true ↔ s = [c] := by
  simp [rmatch]

lemma rmatch_plus_iff (p : Char → Bool) (s : List Char) :
    rmatch (Regex.plusCls p) s = true ↔ s ≠ [] ∧ ∀ c ∈ s, p c = true := by
  simp [rmatch, List.isEmpty_iff, List.all_eq_true]

lemma rmatch_cat_iff (a b : Regex) (s : List Char) :
    rmatch (Regex.cat a b) s = true ↔
      ∃ s1 s2, s = s1 ++ s2 ∧ rmatch a s1 = true ∧ rmatch b s2 = true := by
  constructor
  · intro h
    simp only [rmatch, List.any_eq_true] at h
    obtain ⟨pr, hmem, hab⟩ := h
    simp only [allSplits, List.mem_map, List.mem_range] at hmem
    obtain ⟨i, hi, hpr⟩ := hmem
    rw [Bool.and_eq_true] at hab
    obtain ⟨ha, hb⟩ := hab
    refine ⟨pr.1, pr.2, ?_, ha, hb⟩
    rw [← hpr]
    exact (List.take_append_drop i s).symm
  · rintro ⟨s1, s2, rfl, h1, h2⟩
    simp only [rmatch, List.any_eq_true]
    refine ⟨(s1, s2), ?_, by simp [h1, h2]⟩
    simp only [allSplits, List.mem_map, List.mem_range]
    refine ⟨s1.length, ?_, ?_⟩
    · simp [List.length_append]
      omega
    · rw [List.take_left, List.drop_left]

lemma isValidEmail_iff_shape (e : String) :
    isValidEmail e = true ↔ EmailShape e.data := by
  unfold isValidEmail emailRegex
  constructor
  · intro h
    rw [rmatch_cat_iff] at h
    obtain ⟨x, r1, hs1, hx, h1⟩ := h
    rw [rmatch_cat_iff] at h1
    obtain ⟨a1, r2, hs2, hat, h2⟩ := h1
    rw [rmatch_chr_iff] at hat
    subst hat
    rw [rmatch_cat_iff] at h2
    obtain ⟨y, r3, hs3, hy, h3⟩ := h2
    rw [rmatch_cat_iff] at h3
    obtain ⟨d1, z, hs4, hdot, hz⟩ := h3
    rw [rmatch_chr_iff] at hdot
    subst hdot
    rw [rmatch_plus_iff] at hx hy hz
    refine ⟨x, y, z, ?_, hx.1, hy.1, hz.1,
      fun c hc => (emailCharOk_iff c).mp (hx.2 c hc),
      fun c hc => (emailCharOk_iff c).mp (hy.2 c hc),
      fun c hc => (emailCharOk_iff c).mp (hz.2 c hc)⟩
    rw [hs1, hs2, hs3, hs4]
    simp
  · rintro ⟨x, y, z, hl, hx, hy, hz, hcx, hcy, hcz⟩
    rw [rmatch_cat_iff]
    refine ⟨x, '@' :: (y ++ '.' :: z), hl,
      (rmatch_plus_iff _ _).mpr ⟨hx, fun c hc => (emailCharOk_iff c).mpr (hcx c hc)⟩, ?_⟩
    rw [rmatch_cat_iff]
    refine ⟨['@'], y ++ '.' :: z, rfl, (rmatch_chr_iff _ _).mpr rfl, ?_⟩
    rw [rmatch_cat_iff]
    refine ⟨y, '.' :: z, rfl,
      (rmatch_plus_iff _ _).mpr ⟨hy, fun c hc => (emailCharOk_iff c).mpr (hcy c hc)⟩, ?_⟩
    rw [rmatch_cat_iff]
    exact ⟨['.'], z, rfl, (rmatch_chr_iff _ _).mpr rfl,
      (rmatch_plus_iff _ _).mpr ⟨hz, fun c hc => (emailCharOk_iff c).mpr (hcz c hc)⟩⟩

/-- **C10.** `isValidEmail` accepts a string exactly when it consists of
one or more characters that are neither whitespace nor `'@'`, then `'@'`,
one or more such characters, `'.'`, and one or more such characters; in
particular it rejects `"a@b"` (no dot after the `'@'`) and every string
containing a whitespace character. -/
theorem isValidEmail_characterization :
    (∀ e : String, isValidEmail e = true ↔ EmailShape e.data)
    ∧ isValidEmail "a@b" = false
    ∧ (∀ (e : String) (c : Char), c ∈ e.data → jsSpace c = true → isValidEmail e = false) := by
  refine ⟨isValidEmail_iff_shape, by decide, ?_⟩
  intro e c hc hsp
  cases hval : isValidEmail e with
  | false => rfl
  | true =>
    exfalso
    obtain ⟨x, y, z, hl, hx, hy, hz, hcx, hcy, hcz⟩ := (isValidEmail_iff_shape e).mp hval
    rw [hl] at hc
    simp only [List.mem_append, List.mem_cons] at hc
    rcases hc with hc | hc | hc
    · exact absurd hsp (by simp [(hcx c hc).1])
    · subst hc
      exact absurd hsp (by decide)
    · rcases hc with hc | hc
      · exact absurd hsp (by simp [(hcy c hc).1])
      · rcases hc with hc | hc
        · subst hc
          exact absurd hsp (by decide)
        · exact absurd hsp (by simp [(hcz c hc).1])

/-- Witness for `isValidEmail_characterization`: its whitespace conjunct
applied at the concrete input `"a b@c.d"`. -/
theorem isValidEmail_characterization_witness :
    isValidEmail "a b@c.d" = false :=
  isValidEmail_characterization.2.2 "a b@c.d" ' ' (by decide) (by decide)
